import Mathlib

/-!
Verification of the texture-experiments transform of a Vulkan capture-replay
engine (gapis/api/vulkan/transform_af_disabler.go) and of the device-info
service startup logic (gapidapk/deviceinfo.go).

The Go code is embedded shallowly: typed memory is modelled per structure kind
as an association list from addresses (Nat) to stored values; MustRead becomes
a fallible lookup returning Option; the pass-scoped allocation tracker and the
application-pool write log are threaded through an explicit GlobalState value;
floating-point sampler fields only ever hold the exactly-representable
literals 0, 16 and 100, so they are modelled as rationals.
-/

namespace AgiVerify

/-- VkBool32: a 32-bit integer where zero is false and any non-zero value is
true. -/
abbrev VkBool32 := Nat

/-- Sampler filtering mode (VkFilter). -/
inductive VkFilter where
  | nearest
  | linear
deriving DecidableEq

/-- Sampler mipmap lookup mode (VkSamplerMipmapMode). -/
inductive VkSamplerMipmapMode where
  | nearest
  | linear
deriving DecidableEq

/-- The fields of VkSamplerCreateInfo touched or carried by the transform. -/
structure VkSamplerCreateInfo where
  sType : Nat
  pNext : Nat
  flags : Nat
  magFilter : VkFilter
  minFilter : VkFilter
  mipmapMode : VkSamplerMipmapMode
  addressModeU : Nat
  addressModeV : Nat
  addressModeW : Nat
  mipLodBias : ℚ
  anisotropyEnable : VkBool32
  maxAnisotropy : ℚ
  compareEnable : VkBool32
  compareOp : Nat
  minLod : ℚ
  maxLod : ℚ
  borderColor : Nat
  unnormalizedCoordinates : VkBool32
deriving DecidableEq

/-- Image extent (VkExtent3D). -/
structure VkExtent3D where
  width : Nat
  height : Nat
  depth : Nat
deriving DecidableEq

/-- The fields of VkImageCreateInfo carried by the transform. -/
structure VkImageCreateInfo where
  sType : Nat
  pNext : Nat
  flags : Nat
  imageType : Nat
  format : Nat
  extent : VkExtent3D
  mipLevels : Nat
  arrayLayers : Nat
  samples : Nat
  tiling : Nat
  usage : Nat
  sharingMode : Nat
  initialLayout : Nat
deriving DecidableEq

/-- Mip/array sub-range of an image (VkImageSubresourceRange). -/
structure VkImageSubresourceRange where
  aspectMask : Nat
  baseMipLevel : Nat
  levelCount : Nat
  baseArrayLayer : Nat
  layerCount : Nat
deriving DecidableEq

/-- The fields of VkImageViewCreateInfo carried by the transform. -/
structure VkImageViewCreateInfo where
  sType : Nat
  pNext : Nat
  flags : Nat
  image : Nat
  viewType : Nat
  format : Nat
  components : Nat
  subresourceRange : VkImageSubresourceRange
deriving DecidableEq

/-- An image memory barrier (VkImageMemoryBarrier). -/
structure VkImageMemoryBarrier where
  sType : Nat
  pNext : Nat
  srcAccessMask : Nat
  dstAccessMask : Nat
  oldLayout : Nat
  newLayout : Nat
  srcQueueFamilyIndex : Nat
  dstQueueFamilyIndex : Nat
  image : Nat
  subresourceRange : VkImageSubresourceRange
deriving DecidableEq

/-- One memory observation: an address range plus the backing resource id. -/
structure MemObs where
  base : Nat
  size : Nat
  resId : Nat
deriving DecidableEq

/-- The observation set attached to a command (reads and writes). -/
structure Observations where
  reads : List MemObs
  writes : List MemObs
deriving DecidableEq

/-- A recorded VkCreateSampler call with its typed arguments and extras. -/
structure VkCreateSamplerCmd where
  thread : Nat
  device : Nat
  pCreateInfo : Nat
  pAllocator : Nat
  pSampler : Nat
  result : Nat
  extras : Observations
deriving DecidableEq

/-- A recorded VkCreateImage call with its typed arguments and extras. -/
structure VkCreateImageCmd where
  thread : Nat
  device : Nat
  pCreateInfo : Nat
  pAllocator : Nat
  pImage : Nat
  result : Nat
  extras : Observations
deriving DecidableEq

/-- A recorded VkCreateImageView call with its typed arguments and extras. -/
structure VkCreateImageViewCmd where
  thread : Nat
  device : Nat
  pCreateInfo : Nat
  pAllocator : Nat
  pView : Nat
  result : Nat
  extras : Observations
deriving DecidableEq

/-- A recorded VkCmdPipelineBarrier call with its typed arguments and
extras. -/
structure VkCmdPipelineBarrierCmd where
  thread : Nat
  commandBuffer : Nat
  srcStageMask : Nat
  dstStageMask : Nat
  dependencyFlags : Nat
  memoryBarrierCount : Nat
  pMemoryBarriers : Nat
  bufferMemoryBarrierCount : Nat
  pBufferMemoryBarriers : Nat
  imageMemoryBarrierCount : Nat
  pImageMemoryBarriers : Nat
  extras : Observations
deriving DecidableEq

/-- The command variant: the closed tagged sum over the protocol operations
the transform dispatches on, with a default arm for every other operation. -/
inductive Cmd where
  | vkCreateSampler (c : VkCreateSamplerCmd)
  | vkCreateImage (c : VkCreateImageCmd)
  | vkCreateImageView (c : VkCreateImageViewCmd)
  | vkCmdPipelineBarrier (c : VkCmdPipelineBarrierCmd)
  | other (n : Nat)
deriving DecidableEq

/-- The product of one tracker allocation: scratch address, size and backing
resource id (api.AllocResult). -/
structure AllocationResult where
  ptr : Nat
  size : Nat
  resId : Nat
deriving DecidableEq

/-- The observation covering an allocation (AllocResult.Data()). -/
def AllocationResult.data (r : AllocationResult) : MemObs :=
  ⟨r.ptr, r.size, r.resId⟩

/-- The global replay state as seen by this transform: per-kind typed memory
(association lists from address to stored value), the scratch-allocation
cursor, the pass-scoped allocation tracker and the log of writes made through
GlobalState.Memory.ApplicationPool().Write. -/
structure GlobalState where
  samplerMem : List (Nat × VkSamplerCreateInfo)
  imageMem : List (Nat × VkImageCreateInfo)
  viewMem : List (Nat × VkImageViewCreateInfo)
  barrierMem : List (Nat × List VkImageMemoryBarrier)
  nextScratch : Nat
  nextResId : Nat
  trackerAllocs : List AllocationResult
  appPoolWrites : List MemObs
deriving DecidableEq

/-- Fallible typed memory lookup: the shallow rendering of MustRead, which
fails when the address is unmapped. -/
def assocFind {α : Type} (k : Nat) : List (Nat × α) → Option α
  | [] => none
  | (k', v) :: rest => if k = k' then some v else assocFind k rest

/-- Reserve a fresh disjoint scratch range of the given size and record it in
the pass-scoped tracker (the common core of AllocDataOrPanic). -/
def GlobalState.reserve (s : GlobalState) (size : Nat) :
    AllocationResult × GlobalState :=
  let r : AllocationResult := ⟨s.nextScratch, size, s.nextResId⟩
  (r, { s with
          nextScratch := s.nextScratch + size
          nextResId := s.nextResId + 1
          trackerAllocs := r :: s.trackerAllocs })

/-- AllocDataOrPanic for a sampler create-info: serialize it into a fresh
scratch range (one abstract unit) and record the allocation. -/
def allocSamplerData (s : GlobalState) (info : VkSamplerCreateInfo) :
    AllocationResult × GlobalState :=
  let rs := s.reserve 1
  (rs.fst, { rs.snd with samplerMem := (rs.fst.ptr, info) :: rs.snd.samplerMem })

/-- AllocDataOrPanic for an image create-info. -/
def allocImageData (s : GlobalState) (info : VkImageCreateInfo) :
    AllocationResult × GlobalState :=
  let rs := s.reserve 1
  (rs.fst, { rs.snd with imageMem := (rs.fst.ptr, info) :: rs.snd.imageMem })

/-- AllocDataOrPanic for an image-view create-info. -/
def allocViewData (s : GlobalState) (info : VkImageViewCreateInfo) :
    AllocationResult × GlobalState :=
  let rs := s.reserve 1
  (rs.fst, { rs.snd with viewMem := (rs.fst.ptr, info) :: rs.snd.viewMem })

/-- AllocDataOrPanic for an array of image memory barriers: one abstract unit
per element. -/
def allocBarrierData (s : GlobalState) (bars : List VkImageMemoryBarrier) :
    AllocationResult × GlobalState :=
  let rs := s.reserve bars.length
  (rs.fst, { rs.snd with barrierMem := (rs.fst.ptr, bars) :: rs.snd.barrierMem })

/-- The policy flags of the texture-experiments transform; the pass-scoped
allocation tracker it owns is threaded through GlobalState in this
embedding. -/
structure textureExperiments where
  disableAF : Bool
  generateMipmaps : Bool
deriving DecidableEq

/-- The fixed mip-level constant of the transform (const mipLevels = 100). -/
def mipLevels : Nat := 100

/-- The anisotropy edit of modifySamplerCreation (the if experiment.disableAF
block): when the policy is active and the info has anisotropy enabled, clear
the enable flag and zero max anisotropy; otherwise leave the info as is. -/
def applyAnisotropyPolicy (experiment : textureExperiments)
    (info : VkSamplerCreateInfo) : VkSamplerCreateInfo :=
  if experiment.disableAF then
    if info.anisotropyEnable ≠ 0 then
      { info with anisotropyEnable := 0, maxAnisotropy := 0 }
    else info
  else info

/-- The mipmap edit of modifySamplerCreation (the if
experiment.generateMipmaps block): when the policy is active, force nearest
mipmap mode and nearest filters with LOD range [0, 0] for unnormalized
coordinates and [0, mipLevels] otherwise. -/
def applyMipmapPolicy (experiment : textureExperiments)
    (info : VkSamplerCreateInfo) : VkSamplerCreateInfo :=
  if experiment.generateMipmaps then
    if info.unnormalizedCoordinates ≠ 0 then
      { info with
          mipmapMode := VkSamplerMipmapMode.nearest
          minLod := 0
          maxLod := 0
          minFilter := VkFilter.nearest
          magFilter := VkFilter.nearest }
    else
      { info with
          mipmapMode := VkSamplerMipmapMode.nearest
          minLod := 0
          maxLod := (mipLevels : ℚ)
          minFilter := VkFilter.nearest
          magFilter := VkFilter.nearest }
  else info

/-- Shallow embedding of textureExperiments.modifySamplerCreation: when no
policy is active the command passes through; otherwise the create-info is
read, the anisotropy edit and then the mipmap edit are applied in that order,
the edited info is placed in a fresh scratch allocation, and a rebuilt
VkCreateSampler command pointing at it is returned, carrying one read
observation for the new allocation plus the original write observations.
MustRead failure (unmapped create-info pointer) is rendered as none. -/
def modifySamplerCreation (experiment : textureExperiments)
    (cmd : VkCreateSamplerCmd) (inputState : GlobalState) :
    Option (Cmd × GlobalState) :=
  if !experiment.generateMipmaps && !experiment.disableAF then
    some (Cmd.vkCreateSampler cmd, inputState)
  else
    match assocFind cmd.pCreateInfo inputState.samplerMem with
    | none => none
    | some info0 =>
      let info2 := applyMipmapPolicy experiment (applyAnisotropyPolicy experiment info0)
      let alloc := allocSamplerData inputState info2
      let newInfo := alloc.fst
      let s1 := alloc.snd
      let newCmd : VkCreateSamplerCmd :=
        { thread := cmd.thread
          device := cmd.device
          pCreateInfo := newInfo.ptr
          pAllocator := cmd.pAllocator
          pSampler := cmd.pSampler
          result := cmd.result
          extras := { reads := [newInfo.data], writes := cmd.extras.writes } }
      some (Cmd.vkCreateSampler newCmd, s1)

/-- Shallow embedding of textureExperiments.modifyImageCreation: without the
mipmap policy the command passes through; otherwise the create-info is read
and, when its mip-level count is already non-zero, the input command is
returned unchanged; when it is zero the count is set to mipLevels, the edited
info is placed in a fresh scratch allocation and a rebuilt VkCreateImage
command pointing at it is returned. -/
def modifyImageCreation (experiment : textureExperiments)
    (cmd : VkCreateImageCmd) (inputState : GlobalState) :
    Option (List Cmd × GlobalState) :=
  if !experiment.generateMipmaps then
    some ([Cmd.vkCreateImage cmd], inputState)
  else
    match assocFind cmd.pCreateInfo inputState.imageMem with
    | none => none
    | some info =>
      if info.mipLevels ≠ 0 then
        some ([Cmd.vkCreateImage cmd], inputState)
      else
        let alloc := allocImageData inputState { info with mipLevels := mipLevels }
        let newInfo := alloc.fst
        let s1 := alloc.snd
        let newCmd : VkCreateImageCmd :=
          { thread := cmd.thread
            device := cmd.device
            pCreateInfo := newInfo.ptr
            pAllocator := cmd.pAllocator
            pImage := cmd.pImage
            result := cmd.result
            extras := { reads := [newInfo.data], writes := cmd.extras.writes } }
        some ([Cmd.vkCreateImage newCmd], s1)

/-- Shallow embedding of textureExperiments.modifyImageViewCreation: without
the mipmap policy the command passes through; otherwise the create-info is
read and, when its subresource range already has a non-zero base mip level or
level count, the input command is returned unchanged; when both are zero the
range is set to base level 0 and level count mipLevels, the edited info is
placed in a fresh scratch allocation and a rebuilt VkCreateImageView command
pointing at it is returned. -/
def modifyImageViewCreation (experiment : textureExperiments)
    (cmd : VkCreateImageViewCmd) (inputState : GlobalState) :
    Option (Cmd × GlobalState) :=
  if !experiment.generateMipmaps then
    some (Cmd.vkCreateImageView cmd, inputState)
  else
    match assocFind cmd.pCreateInfo inputState.viewMem with
    | none => none
    | some info =>
      if info.subresourceRange.baseMipLevel ≠ 0 ∨
         info.subresourceRange.levelCount ≠ 0 then
        some (Cmd.vkCreateImageView cmd, inputState)
      else
        let newRange :=
          { info.subresourceRange with baseMipLevel := 0, levelCount := mipLevels }
        let alloc := allocViewData inputState { info with subresourceRange := newRange }
        let newInfo := alloc.fst
        let s1 := alloc.snd
        let newCmd : VkCreateImageViewCmd :=
          { thread := cmd.thread
            device := cmd.device
            pCreateInfo := newInfo.ptr
            pAllocator := cmd.pAllocator
            pView := cmd.pView
            result := cmd.result
            extras := { reads := [newInfo.data], writes := cmd.extras.writes } }
        some (Cmd.vkCreateImageView newCmd, s1)

/-- The per-barrier rewrite inside modifyCmdPipelineBarrier: a barrier whose
subresource range already has a non-zero base mip level or level count is
kept verbatim; otherwise a clone with base level 0 and level count mipLevels
replaces it. -/
def rewriteImageMemoryBarrier (barrier : VkImageMemoryBarrier) :
    VkImageMemoryBarrier :=
  if barrier.subresourceRange.baseMipLevel ≠ 0 ∨
     barrier.subresourceRange.levelCount ≠ 0 then
    barrier
  else
    { barrier with
        subresourceRange :=
          { barrier.subresourceRange with baseMipLevel := 0, levelCount := mipLevels } }

/-- Shallow embedding of textureExperiments.modifyCmdPipelineBarrier: without
the mipmap policy, or when the command has no image memory barriers, it
passes through; otherwise the barrier array is read, each barrier is
rewritten independently, the new array is placed in a fresh scratch
allocation whose range is additionally written into the
application pool, and a rebuilt VkCmdPipelineBarrier pointing at the new
array is returned with the original extras cloned plus one read observation
for the new allocation. -/
def modifyCmdPipelineBarrier (experiment : textureExperiments)
    (cmd : VkCmdPipelineBarrierCmd) (inputState : GlobalState) :
    Option (Cmd × GlobalState) :=
  if !experiment.generateMipmaps then
    some (Cmd.vkCmdPipelineBarrier cmd, inputState)
  else if cmd.imageMemoryBarrierCount = 0 then
    some (Cmd.vkCmdPipelineBarrier cmd, inputState)
  else
    match assocFind cmd.pImageMemoryBarriers inputState.barrierMem with
    | none => none
    | some stored =>
      let imageMemoryBarriers := stored.take cmd.imageMemoryBarrierCount
      let newBarriers := imageMemoryBarriers.map rewriteImageMemoryBarrier
      let alloc := allocBarrierData inputState newBarriers
      let newBarriersAlloc := alloc.fst
      let s1 := alloc.snd
      let s2 :=
        { s1 with appPoolWrites := newBarriersAlloc.data :: s1.appPoolWrites }
      let newCmd : VkCmdPipelineBarrierCmd :=
        { thread := cmd.thread
          commandBuffer := cmd.commandBuffer
          srcStageMask := cmd.srcStageMask
          dstStageMask := cmd.dstStageMask
          dependencyFlags := cmd.dependencyFlags
          memoryBarrierCount := cmd.memoryBarrierCount
          pMemoryBarriers := cmd.pMemoryBarriers
          bufferMemoryBarrierCount := cmd.bufferMemoryBarrierCount
          pBufferMemoryBarriers := cmd.pBufferMemoryBarriers
          imageMemoryBarrierCount := cmd.imageMemoryBarrierCount
          pImageMemoryBarriers := newBarriersAlloc.ptr
          extras :=
            { reads := cmd.extras.reads ++ [newBarriersAlloc.data]
              writes := cmd.extras.writes } }
      some (Cmd.vkCmdPipelineBarrier newCmd, s2)

/-- The dispatch applied to one command inside TransformCommand: the closed
pattern match over the command variant with the default pass-through arm. -/
def transformOneCommand (experiment : textureExperiments) (cmd : Cmd)
    (inputState : GlobalState) : Option (List Cmd × GlobalState) :=
  match cmd with
  | Cmd.vkCreateSampler typedCmd =>
    (modifySamplerCreation experiment typedCmd inputState).map
      (fun p => ([p.fst], p.snd))
  | Cmd.vkCreateImage typedCmd =>
    modifyImageCreation experiment typedCmd inputState
  | Cmd.vkCreateImageView typedCmd =>
    (modifyImageViewCreation experiment typedCmd inputState).map
      (fun p => ([p.fst], p.snd))
  | Cmd.vkCmdPipelineBarrier typedCmd =>
    (modifyCmdPipelineBarrier experiment typedCmd inputState).map
      (fun p => ([p.fst], p.snd))
  | Cmd.other n => some ([Cmd.other n], inputState)

/-- Shallow embedding of textureExperiments.TransformCommand: the input batch
is processed in order, the replacement list of each command is appended to the
output, and the allocation state threads left to right; any failure aborts
the batch. -/
def TransformCommand (experiment : textureExperiments) (inputCommands : List Cmd)
    (inputState : GlobalState) : Option (List Cmd × GlobalState) :=
  match inputCommands with
  | [] => some ([], inputState)
  | cmd :: rest =>
    match transformOneCommand experiment cmd inputState with
    | none => none
    | some (out, s1) =>
      match TransformCommand experiment rest s1 with
      | none => none
      | some (outRest, s2) => some (out ++ outRest, s2)

/-- Retry limit for starting the device-info service
(const startServiceAttempts = 3). -/
def startServiceAttempts : Nat := 3

/-- Retry limit for polling the listening marker
(const portListeningAttempts = 5). -/
def portListeningAttempts : Nat := 5

/-- The state of one device-info fetch: the scripted device responses to StartService
calls and listening-marker polls (indexed by how many such calls happened so
far), the call counters and the log of sleep durations in milliseconds. -/
structure DevInfoState where
  startOk : Nat → Bool
  listens : Nat → Bool
  startCalls : Nat
  pollCalls : Nat
  sleepsMs : List Nat

/-- One adb StartService invocation: consumes the next scripted outcome and
counts the call. -/
def startService (s : DevInfoState) : Bool × DevInfoState :=
  (s.startOk s.startCalls, { s with startCalls := s.startCalls + 1 })

/-- One devInfoPortListening poll: consumes the next scripted marker
observation and counts the poll. -/
def devInfoPortListening (s : DevInfoState) : Bool × DevInfoState :=
  (s.listens s.pollCalls, { s with pollCalls := s.pollCalls + 1 })

/-- Record one sleep of the given number of milliseconds. -/
def sleepMs (ms : Nat) (s : DevInfoState) : DevInfoState :=
  { s with sleepsMs := s.sleepsMs ++ [ms] }

/-- Modelled from the spec: core/event/task.Retry is not under src/. Per the
spec, the caller retries an action up to a fixed number of attempts at a fixed
interval, stopping early as soon as the action reports done; on exhaustion the
last (failed) outcome stands. Each failed attempt is followed by one sleep of
the interval. -/
def retry (f : DevInfoState → Bool × DevInfoState) (intervalMs : Nat) :
    Nat → DevInfoState → Bool × DevInfoState
  | 0, s => (false, s)
  | n + 1, s =>
    let r := f s
    if r.fst then (true, r.snd)
    else retry f intervalMs n (sleepMs intervalMs r.snd)

/-- One outer attempt of startDevInfoService: call StartService (a failed
start fails this attempt) and then poll devInfoPortListening up to
portListeningAttempts times at 1000 ms intervals. -/
def startAttemptBody (s : DevInfoState) : Bool × DevInfoState :=
  if !(startService s).fst then (false, (startService s).snd)
  else retry devInfoPortListening 1000 portListeningAttempts (startService s).snd

/-- Shallow embedding of startDevInfoService: up to startServiceAttempts
outer attempts at 100 ms intervals, each attempt running startAttemptBody;
the call succeeds exactly when some poll saw the port listening, and returns
an error otherwise. -/
def startDevInfoService (s : DevInfoState) : Bool × DevInfoState :=
  retry startAttemptBody 100 startServiceAttempts s

/-- A concrete sampler create-info with anisotropy enabled at 16 and
normalized coordinates. -/
def sampleSamplerInfo : VkSamplerCreateInfo :=
  { sType := 31
    pNext := 0
    flags := 0
    magFilter := VkFilter.linear
    minFilter := VkFilter.linear
    mipmapMode := VkSamplerMipmapMode.linear
    addressModeU := 0
    addressModeV := 0
    addressModeW := 0
    mipLodBias := 0
    anisotropyEnable := 1
    maxAnisotropy := 16
    compareEnable := 0
    compareOp := 0
    minLod := 0
    maxLod := 1
    borderColor := 0
    unnormalizedCoordinates := 0 }

/-- A concrete observation set with one write observation. -/
def sampleObs : Observations := { reads := [], writes := [⟨500, 4, 7⟩] }

/-- A concrete VkCreateSampler command whose create-info lives at address
10. -/
def sampleSamplerCmd : VkCreateSamplerCmd :=
  { thread := 1
    device := 2
    pCreateInfo := 10
    pAllocator := 0
    pSampler := 20
    result := 0
    extras := sampleObs }

/-- A concrete global state mapping address 10 to sampleSamplerInfo, with the
scratch cursor at 1000. -/
def sampleState : GlobalState :=
  { samplerMem := [(10, sampleSamplerInfo)]
    imageMem := []
    viewMem := []
    barrierMem := []
    nextScratch := 1000
    nextResId := 0
    trackerAllocs := []
    appPoolWrites := [] }

/-- The create-info carried by the command a sampler rewrite emitted,
resolved against the post-state memory. -/
def emittedSamplerInfo : Option (Cmd × GlobalState) → Option VkSamplerCreateInfo
  | some (Cmd.vkCreateSampler c, s) => assocFind c.pCreateInfo s.samplerMem
  | _ => none

/-- When at least one policy is active and the create-info pointer is mapped,
the sampler rewrite emits a VkCreateSampler command whose create-info is the
anisotropy edit followed by the mipmap edit of the input info. -/
theorem emittedSamplerInfo_modify (experiment : textureExperiments)
    (cmd : VkCreateSamplerCmd) (s : GlobalState) (info : VkSamplerCreateInfo)
    (hActive : (!experiment.generateMipmaps && !experiment.disableAF) = false)
    (hRead : assocFind cmd.pCreateInfo s.samplerMem = some info) :
    emittedSamplerInfo (modifySamplerCreation experiment cmd s) =
      some (applyMipmapPolicy experiment (applyAnisotropyPolicy experiment info)) := by
  simp [modifySamplerCreation, hActive, hRead, emittedSamplerInfo,
    allocSamplerData, GlobalState.reserve, assocFind]

/-- The mipmap edit never touches the anisotropy fields. -/
theorem applyMipmapPolicy_anisotropy (experiment : textureExperiments)
    (info : VkSamplerCreateInfo) :
    (applyMipmapPolicy experiment info).anisotropyEnable = info.anisotropyEnable ∧
    (applyMipmapPolicy experiment info).maxAnisotropy = info.maxAnisotropy := by
  unfold applyMipmapPolicy
  split_ifs <;> exact ⟨rfl, rfl⟩

/-- The anisotropy edit never touches the coordinate mode. -/
theorem applyAnisotropyPolicy_unnormalized (experiment : textureExperiments)
    (info : VkSamplerCreateInfo) :
    (applyAnisotropyPolicy experiment info).unnormalizedCoordinates =
      info.unnormalizedCoordinates := by
  unfold applyAnisotropyPolicy
  split_ifs <;> rfl

/-- C1: while the anisotropy-disable policy is active, a VkCreateSampler
command whose create-info has anisotropyEnable non-zero is rewritten by
modifySamplerCreation into a command whose create-info has anisotropyEnable 0
and maxAnisotropy 0. -/
theorem modifySamplerCreation_disables_anisotropy
    (experiment : textureExperiments) (cmd : VkCreateSamplerCmd)
    (s : GlobalState) (info : VkSamplerCreateInfo)
    (hAF : experiment.disableAF = true)
    (hRead : assocFind cmd.pCreateInfo s.samplerMem = some info)
    (hOn : info.anisotropyEnable ≠ 0) :
    (emittedSamplerInfo (modifySamplerCreation experiment cmd s)).map
      (fun i => (i.anisotropyEnable, i.maxAnisotropy)) = some (0, 0) := by
  rw [emittedSamplerInfo_modify experiment cmd s info (by simp [hAF]) hRead]
  rcases applyMipmapPolicy_anisotropy experiment
    (applyAnisotropyPolicy experiment info) with ⟨h1, h2⟩
  simp only [Option.map_some', h1, h2, Prod.mk.injEq, Option.some.injEq]
  simp [applyAnisotropyPolicy, hAF, hOn]

/-- Witness for C1 at a concrete command with anisotropy enabled. -/
theorem modifySamplerCreation_disables_anisotropy_witness :
    (emittedSamplerInfo
        (modifySamplerCreation ⟨true, false⟩ sampleSamplerCmd sampleState)).map
      (fun i => (i.anisotropyEnable, i.maxAnisotropy)) = some (0, 0) :=
  modifySamplerCreation_disables_anisotropy ⟨true, false⟩ sampleSamplerCmd
    sampleState sampleSamplerInfo rfl (by decide) (by decide)

/-- C2: while the mipmap-forcing policy is active, the emitted sampler
create-info has nearest mipmap mode and min LOD 0; its max LOD is 0 with
nearest filters under unnormalized coordinates and 100 with nearest filters
otherwise; and when the anisotropy-disable policy is also active against an
anisotropy-enabled input, the emitted info in addition has anisotropy
disabled with max anisotropy 0. -/
theorem modifySamplerCreation_mipmap_policy
    (experiment : textureExperiments) (cmd : VkCreateSamplerCmd)
    (s : GlobalState) (info : VkSamplerCreateInfo)
    (hGM : experiment.generateMipmaps = true)
    (hRead : assocFind cmd.pCreateInfo s.samplerMem = some info) :
    (emittedSamplerInfo (modifySamplerCreation experiment cmd s)).map
        VkSamplerCreateInfo.mipmapMode = some VkSamplerMipmapMode.nearest ∧
    (emittedSamplerInfo (modifySamplerCreation experiment cmd s)).map
        VkSamplerCreateInfo.minLod = some 0 ∧
    (info.unnormalizedCoordinates ≠ 0 →
      (emittedSamplerInfo (modifySamplerCreation experiment cmd s)).map
          VkSamplerCreateInfo.maxLod = some 0 ∧
      (emittedSamplerInfo (modifySamplerCreation experiment cmd s)).map
          VkSamplerCreateInfo.minFilter = some VkFilter.nearest ∧
      (emittedSamplerInfo (modifySamplerCreation experiment cmd s)).map
          VkSamplerCreateInfo.magFilter = some VkFilter.nearest) ∧
    (info.unnormalizedCoordinates = 0 →
      (emittedSamplerInfo (modifySamplerCreation experiment cmd s)).map
          VkSamplerCreateInfo.maxLod = some 100 ∧
      (emittedSamplerInfo (modifySamplerCreation experiment cmd s)).map
          VkSamplerCreateInfo.minFilter = some VkFilter.nearest ∧
      (emittedSamplerInfo (modifySamplerCreation experiment cmd s)).map
          VkSamplerCreateInfo.magFilter = some VkFilter.nearest) ∧
    (experiment.disableAF = true → info.anisotropyEnable ≠ 0 →
      (emittedSamplerInfo (modifySamplerCreation experiment cmd s)).map
        (fun i => (i.anisotropyEnable, i.maxAnisotropy)) = some (0, 0)) := by
  rw [emittedSamplerInfo_modify experiment cmd s info (by simp [hGM]) hRead]
  refine ⟨?_, ?_, fun hUn => ?_, fun hUn => ?_, fun hAF hOn => ?_⟩
  · simp [applyMipmapPolicy, hGM]
    split_ifs <;> rfl
  · simp [applyMipmapPolicy, hGM]
    split_ifs <;> rfl
  · simp [applyMipmapPolicy, hGM, applyAnisotropyPolicy_unnormalized, hUn]
  · simp [applyMipmapPolicy, hGM, applyAnisotropyPolicy_unnormalized, hUn,
      mipLevels]
  · rcases applyMipmapPolicy_anisotropy experiment
      (applyAnisotropyPolicy experiment info) with ⟨h1, h2⟩
    simp only [Option.map_some', h1, h2, Prod.mk.injEq, Option.some.injEq]
    simp [applyAnisotropyPolicy, hAF, hOn]

/-- Witness for C2 at the concrete scenario of the spec: anisotropy enabled at 16,
normalized coordinates, both policies active. -/
theorem modifySamplerCreation_mipmap_policy_witness :
    (emittedSamplerInfo
        (modifySamplerCreation ⟨true, true⟩ sampleSamplerCmd sampleState)).map
        VkSamplerCreateInfo.mipmapMode = some VkSamplerMipmapMode.nearest ∧
    (emittedSamplerInfo
        (modifySamplerCreation ⟨true, true⟩ sampleSamplerCmd sampleState)).map
        VkSamplerCreateInfo.minLod = some 0 ∧
    (emittedSamplerInfo
        (modifySamplerCreation ⟨true, true⟩ sampleSamplerCmd sampleState)).map
        VkSamplerCreateInfo.maxLod = some 100 ∧
    (emittedSamplerInfo
        (modifySamplerCreation ⟨true, true⟩ sampleSamplerCmd sampleState)).map
        VkSamplerCreateInfo.minFilter = some VkFilter.nearest ∧
    (emittedSamplerInfo
        (modifySamplerCreation ⟨true, true⟩ sampleSamplerCmd sampleState)).map
        VkSamplerCreateInfo.magFilter = some VkFilter.nearest ∧
    (emittedSamplerInfo
        (modifySamplerCreation ⟨true, true⟩ sampleSamplerCmd sampleState)).map
      (fun i => (i.anisotropyEnable, i.maxAnisotropy)) = some (0, 0) := by
  have h := modifySamplerCreation_mipmap_policy ⟨true, true⟩ sampleSamplerCmd
    sampleState sampleSamplerInfo rfl (by decide)
  rcases h with ⟨h1, h2, _, h4, h5⟩
  rcases h4 (by decide) with ⟨h41, h42, h43⟩
  exact ⟨h1, h2, h41, h42, h43, h5 rfl (by decide)⟩

/-- A concrete sampler create-info whose anisotropy is already disabled. -/
def c3SamplerInfo : VkSamplerCreateInfo :=
  { sampleSamplerInfo with anisotropyEnable := 0, maxAnisotropy := 1 }

/-- A concrete state mapping the create-info pointer of the sample command to
c3SamplerInfo. -/
def c3State : GlobalState :=
  { sampleState with samplerMem := [(10, c3SamplerInfo)] }

/-- C3 counterexample: with the anisotropy-disable policy active and
anisotropy already disabled in the create-info, modifySamplerCreation does
not return the input command value: the emitted command is a rebuilt copy. -/
theorem modifySamplerCreation_already_disabled_cex :
    (modifySamplerCreation ⟨true, false⟩ sampleSamplerCmd c3State).map
        Prod.fst ≠ some (Cmd.vkCreateSampler sampleSamplerCmd) := by
  decide

/-- C3 amended: with the anisotropy-disable policy active and the mipmap
policy off, a sampler command whose create-info already has anisotropy
disabled is still rebuilt rather than passed through: the emitted command
carries an identical create-info content, but placed at a fresh scratch
address, with every other call argument copied from the input command. -/
theorem modifySamplerCreation_already_disabled_rebuilds
    (experiment : textureExperiments) (cmd : VkCreateSamplerCmd)
    (s : GlobalState) (info : VkSamplerCreateInfo)
    (hAF : experiment.disableAF = true)
    (hGM : experiment.generateMipmaps = false)
    (hRead : assocFind cmd.pCreateInfo s.samplerMem = some info)
    (hOff : info.anisotropyEnable = 0) :
    modifySamplerCreation experiment cmd s =
      some (Cmd.vkCreateSampler
        { thread := cmd.thread
          device := cmd.device
          pCreateInfo := s.nextScratch
          pAllocator := cmd.pAllocator
          pSampler := cmd.pSampler
          result := cmd.result
          extras := { reads := [⟨s.nextScratch, 1, s.nextResId⟩]
                      writes := cmd.extras.writes } },
        { s with
            samplerMem := (s.nextScratch, info) :: s.samplerMem
            nextScratch := s.nextScratch + 1
            nextResId := s.nextResId + 1
            trackerAllocs := ⟨s.nextScratch, 1, s.nextResId⟩ :: s.trackerAllocs }) := by
  simp [modifySamplerCreation, hAF, hGM, hRead, applyAnisotropyPolicy,
    applyMipmapPolicy, hOff, allocSamplerData, GlobalState.reserve,
    AllocationResult.data]

/-- Witness for the amended C3 at a concrete already-disabled command. -/
theorem modifySamplerCreation_already_disabled_rebuilds_witness :
    modifySamplerCreation ⟨true, false⟩ sampleSamplerCmd c3State =
      some (Cmd.vkCreateSampler
        { thread := sampleSamplerCmd.thread
          device := sampleSamplerCmd.device
          pCreateInfo := c3State.nextScratch
          pAllocator := sampleSamplerCmd.pAllocator
          pSampler := sampleSamplerCmd.pSampler
          result := sampleSamplerCmd.result
          extras := { reads := [⟨c3State.nextScratch, 1, c3State.nextResId⟩]
                      writes := sampleSamplerCmd.extras.writes } },
        { c3State with
            samplerMem := (c3State.nextScratch, c3SamplerInfo) :: c3State.samplerMem
            nextScratch := c3State.nextScratch + 1
            nextResId := c3State.nextResId + 1
            trackerAllocs :=
              ⟨c3State.nextScratch, 1, c3State.nextResId⟩ :: c3State.trackerAllocs }) :=
  modifySamplerCreation_already_disabled_rebuilds ⟨true, false⟩
    sampleSamplerCmd c3State c3SamplerInfo rfl rfl (by decide) (by decide)

/-- The create-info carried by the single command an image rewrite emitted,
resolved against the post-state memory. -/
def emittedImageInfo :
    Option (List Cmd × GlobalState) → Option VkImageCreateInfo
  | some ([Cmd.vkCreateImage c], s) => assocFind c.pCreateInfo s.imageMem
  | _ => none

/-- A concrete image create-info requesting zero mip levels. -/
def sampleImageInfo : VkImageCreateInfo :=
  { sType := 14
    pNext := 0
    flags := 0
    imageType := 1
    format := 37
    extent := ⟨640, 480, 1⟩
    mipLevels := 0
    arrayLayers := 1
    samples := 1
    tiling := 0
    usage := 6
    sharingMode := 0
    initialLayout := 0 }

/-- A concrete VkCreateImage command whose create-info lives at address
30. -/
def sampleImageCmd : VkCreateImageCmd :=
  { thread := 1
    device := 2
    pCreateInfo := 30
    pAllocator := 0
    pImage := 40
    result := 0
    extras := sampleObs }

/-- A concrete global state mapping address 30 to sampleImageInfo. -/
def c4State : GlobalState :=
  { sampleState with samplerMem := [], imageMem := [(30, sampleImageInfo)] }

/-- C4: while the mipmap-forcing policy is active, an image create-info
requesting zero mip levels is rewritten to request mipLevels (100) of them,
and an image create-info already requesting a non-zero count passes the
command through completely unchanged. -/
theorem modifyImageCreation_mip_levels
    (experiment : textureExperiments) (cmd : VkCreateImageCmd)
    (s : GlobalState) (info : VkImageCreateInfo)
    (hGM : experiment.generateMipmaps = true)
    (hRead : assocFind cmd.pCreateInfo s.imageMem = some info) :
    (info.mipLevels = 0 →
      (emittedImageInfo (modifyImageCreation experiment cmd s)).map
        VkImageCreateInfo.mipLevels = some mipLevels) ∧
    (info.mipLevels ≠ 0 →
      modifyImageCreation experiment cmd s =
        some ([Cmd.vkCreateImage cmd], s)) := by
  constructor
  · intro hZero
    simp [modifyImageCreation, hGM, hRead, hZero, emittedImageInfo,
      allocImageData, GlobalState.reserve, assocFind]
  · intro hPos
    simp [modifyImageCreation, hGM, hRead, hPos]

/-- Witness for C4 at a concrete zero-mip-level image command. -/
theorem modifyImageCreation_mip_levels_witness :
    (sampleImageInfo.mipLevels = 0 →
      (emittedImageInfo (modifyImageCreation ⟨false, true⟩ sampleImageCmd c4State)).map
        VkImageCreateInfo.mipLevels = some mipLevels) ∧
    (sampleImageInfo.mipLevels ≠ 0 →
      modifyImageCreation ⟨false, true⟩ sampleImageCmd c4State =
        some ([Cmd.vkCreateImage sampleImageCmd], c4State)) :=
  modifyImageCreation_mip_levels ⟨false, true⟩ sampleImageCmd c4State
    sampleImageInfo rfl (by decide)

/-- The create-info carried by the command an image-view rewrite emitted,
resolved against the post-state memory. -/
def emittedViewInfo :
    Option (Cmd × GlobalState) → Option VkImageViewCreateInfo
  | some (Cmd.vkCreateImageView c, s) => assocFind c.pCreateInfo s.viewMem
  | _ => none

/-- A concrete image-view create-info with the default (all-zero) mip
sub-range. -/
def sampleViewInfo : VkImageViewCreateInfo :=
  { sType := 15
    pNext := 0
    flags := 0
    image := 40
    viewType := 1
    format := 37
    components := 0
    subresourceRange := ⟨1, 0, 0, 0, 1⟩ }

/-- A concrete VkCreateImageView command whose create-info lives at address
50. -/
def sampleViewCmd : VkCreateImageViewCmd :=
  { thread := 1
    device := 2
    pCreateInfo := 50
    pAllocator := 0
    pView := 60
    result := 0
    extras := sampleObs }

/-- A concrete global state mapping address 50 to sampleViewInfo. -/
def c5State : GlobalState :=
  { sampleState with samplerMem := [], viewMem := [(50, sampleViewInfo)] }

/-- C5: while the mipmap-forcing policy is active, an image-view create-info
whose sub-range has base mip level 0 and level count 0 is rewritten to base
level 0 with level count mipLevels (100), and a view with any other sub-range
passes the command through unchanged. -/
theorem modifyImageViewCreation_sub_range
    (experiment : textureExperiments) (cmd : VkCreateImageViewCmd)
    (s : GlobalState) (info : VkImageViewCreateInfo)
    (hGM : experiment.generateMipmaps = true)
    (hRead : assocFind cmd.pCreateInfo s.viewMem = some info) :
    (info.subresourceRange.baseMipLevel = 0 ∧
        info.subresourceRange.levelCount = 0 →
      (emittedViewInfo (modifyImageViewCreation experiment cmd s)).map
          (fun i =>
            (i.subresourceRange.baseMipLevel, i.subresourceRange.levelCount)) =
        some (0, mipLevels)) ∧
    (info.subresourceRange.baseMipLevel ≠ 0 ∨
        info.subresourceRange.levelCount ≠ 0 →
      modifyImageViewCreation experiment cmd s =
        some (Cmd.vkCreateImageView cmd, s)) := by
  constructor
  · rintro ⟨hBase, hCount⟩
    simp [modifyImageViewCreation, hGM, hRead, hBase, hCount,
      emittedViewInfo, allocViewData, GlobalState.reserve, assocFind]
  · intro hOther
    rcases hOther with hBase | hCount
    · simp [modifyImageViewCreation, hGM, hRead, hBase]
    · simp [modifyImageViewCreation, hGM, hRead, hCount]

/-- Witness for C5 at a concrete default-sub-range image-view command. -/
theorem modifyImageViewCreation_sub_range_witness :
    (sampleViewInfo.subresourceRange.baseMipLevel = 0 ∧
        sampleViewInfo.subresourceRange.levelCount = 0 →
      (emittedViewInfo
          (modifyImageViewCreation ⟨false, true⟩ sampleViewCmd c5State)).map
          (fun i =>
            (i.subresourceRange.baseMipLevel, i.subresourceRange.levelCount)) =
        some (0, mipLevels)) ∧
    (sampleViewInfo.subresourceRange.baseMipLevel ≠ 0 ∨
        sampleViewInfo.subresourceRange.levelCount ≠ 0 →
      modifyImageViewCreation ⟨false, true⟩ sampleViewCmd c5State =
        some (Cmd.vkCreateImageView sampleViewCmd, c5State)) :=
  modifyImageViewCreation_sub_range ⟨false, true⟩ sampleViewCmd c5State
    sampleViewInfo rfl (by decide)

/-- The image-memory-barrier array carried by the command a barrier rewrite
emitted, resolved against the post-state memory. -/
def emittedBarriers :
    Option (Cmd × GlobalState) → Option (List VkImageMemoryBarrier)
  | some (Cmd.vkCmdPipelineBarrier c, s) =>
    assocFind c.pImageMemoryBarriers s.barrierMem
  | _ => none

/-- A concrete image memory barrier with a non-default mip sub-range. -/
def sampleBarrierA : VkImageMemoryBarrier :=
  { sType := 45
    pNext := 0
    srcAccessMask := 1
    dstAccessMask := 2
    oldLayout := 3
    newLayout := 4
    srcQueueFamilyIndex := 0
    dstQueueFamilyIndex := 0
    image := 40
    subresourceRange := ⟨1, 2, 3, 0, 1⟩ }

/-- A concrete image memory barrier with the default all-zero mip
sub-range. -/
def sampleBarrierB : VkImageMemoryBarrier :=
  { sampleBarrierA with subresourceRange := ⟨1, 0, 0, 0, 1⟩ }

/-- A concrete VkCmdPipelineBarrier command with two image memory barriers
stored at address 70. -/
def sampleBarrierCmd : VkCmdPipelineBarrierCmd :=
  { thread := 1
    commandBuffer := 3
    srcStageMask := 1
    dstStageMask := 2
    dependencyFlags := 0
    memoryBarrierCount := 0
    pMemoryBarriers := 0
    bufferMemoryBarrierCount := 0
    pBufferMemoryBarriers := 0
    imageMemoryBarrierCount := 2
    pImageMemoryBarriers := 70
    extras := sampleObs }

/-- A concrete state mapping address 70 to the two sample barriers. -/
def c6State : GlobalState :=
  { sampleState with
      samplerMem := []
      barrierMem := [(70, [sampleBarrierA, sampleBarrierB])] }

/-- The element-wise rewrite of the barrier array read for a command. -/
def rewrittenBarriers (cmd : VkCmdPipelineBarrierCmd)
    (bars : List VkImageMemoryBarrier) : List VkImageMemoryBarrier :=
  (bars.take cmd.imageMemoryBarrierCount).map rewriteImageMemoryBarrier

/-- Full computation of modifyCmdPipelineBarrier in the rewriting case: with
the mipmap policy active, a non-zero barrier count and a mapped barrier
array, the result is the rebuilt command pointing at a fresh allocation
holding the rewritten array, with the allocation tracked and its range
written into the application pool. -/
theorem modifyCmdPipelineBarrier_eq
    (experiment : textureExperiments) (cmd : VkCmdPipelineBarrierCmd)
    (s : GlobalState) (bars : List VkImageMemoryBarrier)
    (hGM : experiment.generateMipmaps = true)
    (hCount : cmd.imageMemoryBarrierCount ≠ 0)
    (hRead : assocFind cmd.pImageMemoryBarriers s.barrierMem = some bars) :
    modifyCmdPipelineBarrier experiment cmd s =
      some (Cmd.vkCmdPipelineBarrier
        { cmd with
            pImageMemoryBarriers := s.nextScratch
            extras :=
              { reads := cmd.extras.reads ++
                  [⟨s.nextScratch, (rewrittenBarriers cmd bars).length,
                    s.nextResId⟩]
                writes := cmd.extras.writes } },
        { s with
            barrierMem :=
              (s.nextScratch, rewrittenBarriers cmd bars) :: s.barrierMem
            nextScratch := s.nextScratch + (rewrittenBarriers cmd bars).length
            nextResId := s.nextResId + 1
            trackerAllocs :=
              ⟨s.nextScratch, (rewrittenBarriers cmd bars).length, s.nextResId⟩ ::
                s.trackerAllocs
            appPoolWrites :=
              (⟨s.nextScratch, (rewrittenBarriers cmd bars).length,
                  s.nextResId⟩ : MemObs) :: s.appPoolWrites }) := by
  simp [modifyCmdPipelineBarrier, hGM, hCount, hRead, allocBarrierData,
    GlobalState.reserve, AllocationResult.data, rewrittenBarriers]

/-- C6: while the mipmap-forcing policy is active, each image memory barrier
of a barrier command is rewritten independently: the emitted array is the
element-wise rewrite of the input array, where a barrier with a non-default
sub-range is kept as the identical value and a barrier with the default
all-zero sub-range is replaced by a copy with base level 0 and level count
mipLevels (100). -/
theorem modifyCmdPipelineBarrier_rewrites_each_barrier
    (experiment : textureExperiments) (cmd : VkCmdPipelineBarrierCmd)
    (s : GlobalState) (bars : List VkImageMemoryBarrier)
    (hGM : experiment.generateMipmaps = true)
    (hCount : cmd.imageMemoryBarrierCount ≠ 0)
    (hRead : assocFind cmd.pImageMemoryBarriers s.barrierMem = some bars) :
    emittedBarriers (modifyCmdPipelineBarrier experiment cmd s) =
      some ((bars.take cmd.imageMemoryBarrierCount).map
        rewriteImageMemoryBarrier) ∧
    (∀ b : VkImageMemoryBarrier,
      b.subresourceRange.baseMipLevel ≠ 0 ∨ b.subresourceRange.levelCount ≠ 0 →
        rewriteImageMemoryBarrier b = b) ∧
    (∀ b : VkImageMemoryBarrier,
      b.subresourceRange.baseMipLevel = 0 ∧ b.subresourceRange.levelCount = 0 →
        rewriteImageMemoryBarrier b =
          { b with
              subresourceRange :=
                { b.subresourceRange with
                    baseMipLevel := 0, levelCount := mipLevels } }) := by
  refine ⟨?_, ?_, ?_⟩
  · simp [modifyCmdPipelineBarrier, hGM, hCount, hRead, emittedBarriers,
      allocBarrierData, GlobalState.reserve, assocFind]
  · intro b hb
    rcases hb with hb | hb <;> simp [rewriteImageMemoryBarrier, hb]
  · rintro b ⟨h1, h2⟩
    simp [rewriteImageMemoryBarrier, h1, h2]

/-- Witness for C6 at a concrete command with one non-default and one
default barrier. -/
theorem modifyCmdPipelineBarrier_rewrites_each_barrier_witness :
    emittedBarriers (modifyCmdPipelineBarrier ⟨false, true⟩ sampleBarrierCmd c6State) =
      some (([sampleBarrierA, sampleBarrierB].take
          sampleBarrierCmd.imageMemoryBarrierCount).map
        rewriteImageMemoryBarrier) ∧
    (∀ b : VkImageMemoryBarrier,
      b.subresourceRange.baseMipLevel ≠ 0 ∨ b.subresourceRange.levelCount ≠ 0 →
        rewriteImageMemoryBarrier b = b) ∧
    (∀ b : VkImageMemoryBarrier,
      b.subresourceRange.baseMipLevel = 0 ∧ b.subresourceRange.levelCount = 0 →
        rewriteImageMemoryBarrier b =
          { b with
              subresourceRange :=
                { b.subresourceRange with
                    baseMipLevel := 0, levelCount := mipLevels } }) :=
  modifyCmdPipelineBarrier_rewrites_each_barrier ⟨false, true⟩
    sampleBarrierCmd c6State [sampleBarrierA, sampleBarrierB] rfl
    (by decide) (by decide)

/-- A concrete barrier command whose single image memory barrier already has
a non-default sub-range. -/
def c7Cmd : VkCmdPipelineBarrierCmd :=
  { sampleBarrierCmd with imageMemoryBarrierCount := 1 }

/-- A concrete state mapping address 70 to a single non-default barrier. -/
def c7State : GlobalState :=
  { sampleState with
      samplerMem := []
      barrierMem := [(70, [sampleBarrierA])] }

/-- C7 counterexample: while the mipmap-forcing policy is active, a barrier
command whose every image memory barrier already has a non-default sub-range
is still rebuilt: the emitted command differs from the input command. -/
theorem modifyCmdPipelineBarrier_passthrough_cex :
    (modifyCmdPipelineBarrier ⟨false, true⟩ c7Cmd c7State).map Prod.fst ≠
      some (Cmd.vkCmdPipelineBarrier c7Cmd) := by
  decide

/-- C7 amended: while the mipmap-forcing policy is active, a barrier command
is rebuilt whenever it contains at least one image memory barrier, whether or
not any barrier needed rewriting; the input command passes through unchanged
exactly when the policy is inactive or the command has no image memory
barriers. -/
theorem modifyCmdPipelineBarrier_rebuild_conditions
    (experiment : textureExperiments) (cmd : VkCmdPipelineBarrierCmd)
    (s : GlobalState) :
    (experiment.generateMipmaps = true → cmd.imageMemoryBarrierCount ≠ 0 →
      ∀ bars, assocFind cmd.pImageMemoryBarriers s.barrierMem = some bars →
        ∃ newCmd s',
          modifyCmdPipelineBarrier experiment cmd s =
            some (Cmd.vkCmdPipelineBarrier newCmd, s') ∧
          newCmd ≠ cmd) ∧
    (cmd.imageMemoryBarrierCount = 0 →
      modifyCmdPipelineBarrier experiment cmd s =
        some (Cmd.vkCmdPipelineBarrier cmd, s)) ∧
    (experiment.generateMipmaps = false →
      modifyCmdPipelineBarrier experiment cmd s =
        some (Cmd.vkCmdPipelineBarrier cmd, s)) := by
  refine ⟨?_, ?_, ?_⟩
  · intro hGM hCount bars hRead
    rw [modifyCmdPipelineBarrier_eq experiment cmd s bars hGM hCount hRead]
    refine ⟨_, _, rfl, ?_⟩
    intro hEq
    have hLen := congrArg (fun c => c.extras.reads.length) hEq
    simp at hLen
  · intro hZero
    simp [modifyCmdPipelineBarrier, hZero]
  · intro hGM
    simp [modifyCmdPipelineBarrier, hGM]

/-- Witness for the amended C7 at a concrete command whose only barrier is
non-default. -/
theorem modifyCmdPipelineBarrier_rebuild_conditions_witness :
    ((true : Bool) = true → c7Cmd.imageMemoryBarrierCount ≠ 0 →
      ∀ bars, assocFind c7Cmd.pImageMemoryBarriers c7State.barrierMem = some bars →
        ∃ newCmd s',
          modifyCmdPipelineBarrier ⟨false, true⟩ c7Cmd c7State =
            some (Cmd.vkCmdPipelineBarrier newCmd, s') ∧
          newCmd ≠ c7Cmd) ∧
    (c7Cmd.imageMemoryBarrierCount = 0 →
      modifyCmdPipelineBarrier ⟨false, true⟩ c7Cmd c7State =
        some (Cmd.vkCmdPipelineBarrier c7Cmd, c7State)) ∧
    ((true : Bool) = false →
      modifyCmdPipelineBarrier ⟨false, true⟩ c7Cmd c7State =
        some (Cmd.vkCmdPipelineBarrier c7Cmd, c7State)) :=
  modifyCmdPipelineBarrier_rebuild_conditions ⟨false, true⟩ c7Cmd c7State

/-- C10: while the mipmap-forcing policy is active, processing a barrier
command with at least one image memory barrier appends a write covering the
newly allocated barrier array (base, size and backing resource of the fresh
allocation) to the application pool, and records the same allocation in the
pass-scoped tracker. -/
theorem modifyCmdPipelineBarrier_app_pool_write
    (experiment : textureExperiments) (cmd : VkCmdPipelineBarrierCmd)
    (s : GlobalState) (bars : List VkImageMemoryBarrier)
    (hGM : experiment.generateMipmaps = true)
    (hCount : cmd.imageMemoryBarrierCount ≠ 0)
    (hRead : assocFind cmd.pImageMemoryBarriers s.barrierMem = some bars) :
    ∃ out s',
      modifyCmdPipelineBarrier experiment cmd s = some (out, s') ∧
      s'.appPoolWrites =
        (⟨s.nextScratch, (bars.take cmd.imageMemoryBarrierCount).length,
            s.nextResId⟩ : MemObs) :: s.appPoolWrites ∧
      (⟨s.nextScratch, (bars.take cmd.imageMemoryBarrierCount).length,
          s.nextResId⟩ : AllocationResult) ∈ s'.trackerAllocs := by
  rw [modifyCmdPipelineBarrier_eq experiment cmd s bars hGM hCount hRead]
  refine ⟨_, _, rfl, ?_, ?_⟩ <;> simp [rewrittenBarriers]

/-- Witness for C10 at a concrete two-barrier command. -/
theorem modifyCmdPipelineBarrier_app_pool_write_witness :
    ∃ out s',
      modifyCmdPipelineBarrier ⟨false, true⟩ sampleBarrierCmd c6State =
        some (out, s') ∧
      s'.appPoolWrites =
        (⟨c6State.nextScratch,
            (([sampleBarrierA, sampleBarrierB].take
              sampleBarrierCmd.imageMemoryBarrierCount)).length,
            c6State.nextResId⟩ : MemObs) :: c6State.appPoolWrites ∧
      (⟨c6State.nextScratch,
          (([sampleBarrierA, sampleBarrierB].take
            sampleBarrierCmd.imageMemoryBarrierCount)).length,
          c6State.nextResId⟩ : AllocationResult) ∈ s'.trackerAllocs :=
  modifyCmdPipelineBarrier_app_pool_write ⟨false, true⟩ sampleBarrierCmd
    c6State [sampleBarrierA, sampleBarrierB] rfl (by decide) (by decide)

/-- C8: TransformCommand is a homomorphism over batch concatenation: running
it on the concatenation of two batches gives exactly the outputs of running
it on the first batch and then on the second from the resulting state,
concatenated; hence the emitted command sequence is independent of how the
ordered stream is cut into batches. -/
theorem TransformCommand_append (experiment : textureExperiments)
    (xs ys : List Cmd) (s : GlobalState) :
    TransformCommand experiment (xs ++ ys) s =
      match TransformCommand experiment xs s with
      | none => none
      | some (out1, s1) =>
        match TransformCommand experiment ys s1 with
        | none => none
        | some (out2, s2) => some (out1 ++ out2, s2) := by
  induction xs generalizing s with
  | nil =>
    cases h : TransformCommand experiment ys s with
    | none => simp [TransformCommand, h]
    | some p => simp [TransformCommand, h]
  | cons c rest ih =>
    cases hstep : transformOneCommand experiment c s with
    | none => simp [TransformCommand, hstep]
    | some p =>
      rcases p with ⟨out, s1⟩
      cases h1 : TransformCommand experiment rest s1 with
      | none => simp [TransformCommand, hstep, ih, h1]
      | some q =>
        rcases q with ⟨out1, s2⟩
        cases h2 : TransformCommand experiment ys s2 with
        | none => simp [TransformCommand, hstep, ih, h1, h2]
        | some r =>
          rcases r with ⟨out2, s3⟩
          simp [TransformCommand, hstep, ih, h1, h2]

/-- Any retry loop whose body never reports done returns false and keeps the
invariant of the body. -/
theorem retry_never_done {f : DevInfoState → Bool × DevInfoState}
    {intervalMs : Nat} (P : DevInfoState → Prop)
    (hf : ∀ t, P t → (f t).fst = false ∧ P (f t).snd)
    (hsleep : ∀ t, P t → P (sleepMs intervalMs t)) :
    ∀ n s, P s →
      (retry f intervalMs n s).fst = false ∧ P (retry f intervalMs n s).snd := by
  intro n
  induction n with
  | zero => intro s hs; exact ⟨rfl, hs⟩
  | succ n ih =>
    intro s hs
    have h1 := hf s hs
    simp only [retry, h1.1, if_false, Bool.false_eq_true]
    exact ih _ (hsleep _ h1.2)

/-- A numeric measure that each body call increases by at most k, and that
sleeping preserves, grows by at most n * k across a retry loop of n
attempts. -/
theorem retry_measure_le {f : DevInfoState → Bool × DevInfoState}
    {intervalMs : Nat} (m : DevInfoState → Nat) (k : Nat)
    (hf : ∀ t, m (f t).snd ≤ m t + k)
    (hsleep : ∀ t, m (sleepMs intervalMs t) = m t) :
    ∀ n s, m (retry f intervalMs n s).snd ≤ m s + n * k := by
  intro n
  induction n with
  | zero => intro s; simp [retry]
  | succ n ih =>
    intro s
    cases hfs : (f s).fst with
    | true =>
      simp only [retry, hfs, if_true]
      calc m (f s).snd ≤ m s + k := hf s
        _ ≤ m s + (n + 1) * k := by
            have : k ≤ (n + 1) * k := Nat.le_mul_of_pos_left k (Nat.succ_pos n)
            omega
    | false =>
      simp only [retry, hfs, if_false, Bool.false_eq_true]
      calc m (retry f intervalMs n (sleepMs intervalMs (f s).snd)).snd
          ≤ m (sleepMs intervalMs (f s).snd) + n * k := ih _
        _ = m (f s).snd + n * k := by rw [hsleep]
        _ ≤ m s + k + n * k := Nat.add_le_add_right (hf s) _
        _ = m s + (n + 1) * k := by ring

/-- A numeric measure that the body and sleeping both preserve is preserved
by a whole retry loop. -/
theorem retry_measure_eq {f : DevInfoState → Bool × DevInfoState}
    {intervalMs : Nat} (m : DevInfoState → Nat)
    (hf : ∀ t, m (f t).snd = m t)
    (hsleep : ∀ t, m (sleepMs intervalMs t) = m t) :
    ∀ n s, m (retry f intervalMs n s).snd = m s := by
  intro n
  induction n with
  | zero => intro s; simp [retry]
  | succ n ih =>
    intro s
    cases hfs : (f s).fst with
    | true => simp only [retry, hfs, if_true]; exact hf s
    | false =>
      simp only [retry, hfs, if_false, Bool.false_eq_true]
      rw [ih _, hsleep, hf]

/-- An invariant that the body and sleeping both preserve is preserved by a
whole retry loop. -/
theorem retry_preserves (P : DevInfoState → Prop)
    {f : DevInfoState → Bool × DevInfoState} {intervalMs : Nat}
    (hf : ∀ t, P t → P (f t).snd)
    (hsleep : ∀ t, P t → P (sleepMs intervalMs t)) :
    ∀ n s, P s → P (retry f intervalMs n s).snd := by
  intro n
  induction n with
  | zero => intro s hs; exact hs
  | succ n ih =>
    intro s hs
    cases hfs : (f s).fst with
    | true => simp only [retry, hfs, if_true]; exact hf s hs
    | false =>
      simp only [retry, hfs, if_false, Bool.false_eq_true]
      exact ih _ (hsleep _ (hf s hs))

/-- C9: when the port never listens, startDevInfoService calls StartService
at most startServiceAttempts (3) times, polls the listening marker at most
startServiceAttempts * portListeningAttempts (15) times in total (at most
portListeningAttempts (5) per start attempt), only ever sleeps the 100 ms
start-retry interval or the 1000 ms poll interval, and returns an error
rather than succeeding. -/
theorem startDevInfoService_retry_bounds (s0 : DevInfoState)
    (hs : s0.startCalls = 0) (hp : s0.pollCalls = 0)
    (hsl : s0.sleepsMs = [])
    (hl : ∀ j, s0.listens j = false) :
    (startDevInfoService s0).fst = false ∧
    (startDevInfoService s0).snd.startCalls ≤ startServiceAttempts ∧
    (startDevInfoService s0).snd.pollCalls ≤
      startServiceAttempts * portListeningAttempts ∧
    ∀ d ∈ (startDevInfoService s0).snd.sleepsMs, d = 100 ∨ d = 1000 := by
  have hNever : ∀ t, (∀ j, t.listens j = false) →
      (startAttemptBody t).fst = false ∧
      ∀ j, (startAttemptBody t).snd.listens j = false := by
    intro t ht
    unfold startAttemptBody
    cases hst : (startService t).fst with
    | false => simpa [hst] using ht
    | true =>
      simp only [hst, Bool.not_true, Bool.false_eq_true, if_false]
      exact retry_never_done (fun u => ∀ j, u.listens j = false)
        (fun u hu => ⟨hu u.pollCalls, hu⟩) (fun u hu => hu)
        portListeningAttempts _ ht
  have hFail := @retry_never_done startAttemptBody 100
    (fun u => ∀ j, u.listens j = false)
    hNever (fun u hu => hu) startServiceAttempts s0 hl
  have hInnerStart : ∀ n u,
      (retry devInfoPortListening 1000 n u).snd.startCalls = u.startCalls :=
    fun n u =>
      retry_measure_eq (fun v => v.startCalls) (fun t => rfl) (fun t => rfl) n u
  have hBodyStart : ∀ t, (startAttemptBody t).snd.startCalls ≤ t.startCalls + 1 := by
    intro t
    unfold startAttemptBody
    cases hst : (startService t).fst with
    | false => simp [hst, startService]
    | true =>
      simp only [hst, Bool.not_true, Bool.false_eq_true, if_false]
      rw [hInnerStart]
      simp [startService]
  have hStart := @retry_measure_le startAttemptBody 100
    (fun v => v.startCalls) 1 hBodyStart
    (fun t => rfl) startServiceAttempts s0
  have hInnerPoll : ∀ n u,
      (retry devInfoPortListening 1000 n u).snd.pollCalls ≤ u.pollCalls + n * 1 :=
    fun n u =>
      retry_measure_le (fun v => v.pollCalls) 1 (fun t => le_rfl)
        (fun t => rfl) n u
  have hBodyPoll : ∀ t,
      (startAttemptBody t).snd.pollCalls ≤ t.pollCalls + portListeningAttempts := by
    intro t
    unfold startAttemptBody
    cases hst : (startService t).fst with
    | false =>
      simp only [hst, Bool.not_false, if_true]
      exact Nat.le_add_right _ _
    | true =>
      simp only [hst, Bool.not_true, Bool.false_eq_true, if_false]
      calc (retry devInfoPortListening 1000 portListeningAttempts
              (startService t).snd).snd.pollCalls
          ≤ (startService t).snd.pollCalls + portListeningAttempts * 1 :=
            hInnerPoll portListeningAttempts _
        _ = t.pollCalls + portListeningAttempts := by simp [startService]
  have hPoll := @retry_measure_le startAttemptBody 100
    (fun v => v.pollCalls) portListeningAttempts
    hBodyPoll (fun t => rfl) startServiceAttempts s0
  have hSleepAdd : ∀ (ms : Nat) t, (sleepMs ms t).sleepsMs = t.sleepsMs ++ [ms] :=
    fun ms t => rfl
  have hGoodSleep : ∀ (ms : Nat), (ms = 100 ∨ ms = 1000) → ∀ t,
      (∀ d ∈ t.sleepsMs, d = 100 ∨ d = 1000) →
      ∀ d ∈ (sleepMs ms t).sleepsMs, d = 100 ∨ d = 1000 := by
    intro ms hms t ht d hd
    rw [hSleepAdd] at hd
    rcases List.mem_append.mp hd with h | h
    · exact ht d h
    · rcases List.mem_singleton.mp h with rfl
      exact hms
  have hInnerSleeps : ∀ n u, (∀ d ∈ u.sleepsMs, d = 100 ∨ d = 1000) →
      ∀ d ∈ (retry devInfoPortListening 1000 n u).snd.sleepsMs,
        d = 100 ∨ d = 1000 :=
    retry_preserves (fun u => ∀ d ∈ u.sleepsMs, d = 100 ∨ d = 1000)
      (fun t ht => ht) (fun t ht => hGoodSleep 1000 (Or.inr rfl) t ht)
  have hBodySleeps : ∀ t, (∀ d ∈ t.sleepsMs, d = 100 ∨ d = 1000) →
      ∀ d ∈ (startAttemptBody t).snd.sleepsMs, d = 100 ∨ d = 1000 := by
    intro t ht
    unfold startAttemptBody
    cases hst : (startService t).fst with
    | false => simpa [hst] using ht
    | true =>
      simp only [hst, Bool.not_true, Bool.false_eq_true, if_false]
      exact hInnerSleeps portListeningAttempts _ ht
  have hSleeps := @retry_preserves
    (fun u => ∀ d ∈ u.sleepsMs, d = 100 ∨ d = 1000) startAttemptBody 100
    hBodySleeps
    (fun t ht => hGoodSleep 100 (Or.inl rfl) t ht) startServiceAttempts s0
    (by intro d hd; rw [hsl] at hd; cases hd)
  refine ⟨hFail.1, ?_, ?_, hSleeps⟩
  · calc (startDevInfoService s0).snd.startCalls
        ≤ s0.startCalls + startServiceAttempts * 1 := hStart
      _ = startServiceAttempts := by rw [hs]; ring
  · calc (startDevInfoService s0).snd.pollCalls
        ≤ s0.pollCalls + startServiceAttempts * portListeningAttempts := hPoll
      _ = startServiceAttempts * portListeningAttempts := by rw [hp]; ring

/-- A concrete device-info state whose service always starts but whose port
never listens. -/
def c9State : DevInfoState :=
  { startOk := fun _ => true
    listens := fun _ => false
    startCalls := 0
    pollCalls := 0
    sleepsMs := [] }

/-- Witness for C9 at a concrete never-listening device. -/
theorem startDevInfoService_retry_bounds_witness :
    (startDevInfoService c9State).fst = false ∧
    (startDevInfoService c9State).snd.startCalls ≤ startServiceAttempts ∧
    (startDevInfoService c9State).snd.pollCalls ≤
      startServiceAttempts * portListeningAttempts ∧
    ∀ d ∈ (startDevInfoService c9State).snd.sleepsMs, d = 100 ∨ d = 1000 :=
  startDevInfoService_retry_bounds c9State rfl rfl rfl (fun _ => rfl)

end AgiVerify
